import Mathlib

/-!
Shallow embedding of the westcowboy slot-machine engine.

The repository keeps two concatenated revisions of both Reel.ts and
SlotMachine.ts (the second revision of each file follows a separator
marker).  Where the two revisions differ, each definition below records
which revision it is translated from.  Positions and speeds are modelled
as rationals; symbol identifiers are strings, exactly the keys of
SYMBOLS_CONFIG in src/src/config/assets.config.ts.
-/

namespace WestCowboy

/-- SYMBOLS_CONFIG from src/src/config/assets.config.ts lines 53-72:
the (key, value) pairs in source order.  The source object also carries a
filename per entry; filenames are only used to fetch textures and are not
modelled. -/
def SYMBOLS_CONFIG : List (String × Nat) :=
  [("BAG_OF_GOLD", 100), ("BARRELS", 50), ("BOOTS", 75),
   ("DYNAMITE_CRATE", 200), ("GAS_LAMP", 150), ("PILE_OF_GOLD", 300),
   ("SNAKE", 25), ("WILD", 175), ("MAN", 500), ("WOMAN", 500),
   ("CHARACTER_MAN_SYMBOL", 500), ("CHARACTER_WOMAN_SYMBOL", 500)]

/-- Value lookup, mirroring SYMBOLS_CONFIG[key].value. -/
def symbolValue (key : String) : Option Nat :=
  SYMBOLS_CONFIG.lookup key

/-- Object.keys(SYMBOLS_CONFIG), in source order. -/
def symbolKeys : List String := SYMBOLS_CONFIG.map Prod.fst

/-- Symbol values in catalog order (Object.values(SYMBOLS_CONFIG)[i].value). -/
def symbolValues : List Nat := SYMBOLS_CONFIG.map Prod.snd

/-- WinLine record from SlotMachine.ts lines 12-17. -/
structure WinLine where
  lineNumber : Nat
  symbols : List String
  count : Nat
  payout : Nat
deriving DecidableEq, Repr

/-- Payload of the columnWin event emitted in calculateWins. -/
structure ColumnWinEvent where
  reelIndex : Nat
  character : String
deriving DecidableEq, Repr

/-- The inner loop of the payline scan (SlotMachine.ts lines 205-211):
given the first symbol of the row, counts how many further symbols in a
row continue the run, where a symbol continues the run when it equals the
first symbol or is the literal WILD id; the count stops at the first
mismatch. -/
def matchCountGo (first : String) : List String → Nat
  | [] => 0
  | s :: rest =>
    if s = first ∨ s = "WILD" then 1 + matchCountGo first rest else 0

/-- Evaluation of one payline row (SlotMachine.ts lines 192-231, identical
in src/unnamed/part_000 lines 211-250).  The code initialises matchCount
to 1 for the first symbol and scans from index 1; a run of length at
least 3 produces a WinLine whose payout is SYMBOLS_CONFIG[first].value
times the run length and whose symbol list replaces WILD by the matched
first symbol.  A missing catalog entry would throw in the source; it is
modelled by the Option default 0, and every theorem below instantiates
first with a catalog key. -/
def evalLine (rowIdx : Nat) (line : List String) : Option WinLine :=
  match line with
  | [] => none
  | first :: rest =>
    let mc := 1 + matchCountGo first rest
    if 3 ≤ mc then
      some { lineNumber := rowIdx + 1
             symbols := (line.take mc).map (fun s => if s = "WILD" then first else s)
             count := mc
             payout := (symbolValue first).getD 0 * mc }
    else none

/-- Column-win test for one reel column (SlotMachine.ts lines 180-184):
the first row symbol must be MAN or WOMAN and every row must equal it.
An empty column is vacuously rejected, as in the source where an
undefined first symbol fails the equality test. -/
def isColumnWin (col : List String) : Bool :=
  match col with
  | [] => false
  | first :: _ =>
    (first = "MAN" ∨ first = "WOMAN") && col.all (fun s => s = first)

/-- The body of the column-win loop for one reel (index, column) pair:
the event emitted for it, if any, carrying the reel index and the
character name Man or Woman. -/
def columnWinEvent (p : Nat × List String) : Option ColumnWinEvent :=
  if isColumnWin p.2 then
    some { reelIndex := p.1
           character := if p.2.headD "" = "MAN" then "Man" else "Woman" }
  else none

/-- The columnWin events emitted by the loop at SlotMachine.ts lines
178-190, in reel order: one event per reel whose column passes
isColumnWin. -/
def columnWinEvents (reelSymbols : List (List String)) : List ColumnWinEvent :=
  reelSymbols.enum.filterMap columnWinEvent

/-- The row extraction loop at SlotMachine.ts lines 196-199: lineSymbols
collects reelSymbols[reel][row] for each reel in order. -/
def rowLine (reelSymbols : List (List String)) (row : Nat) : List String :=
  reelSymbols.map (fun col => col.getD row "")

/-- calculateWins (SlotMachine.ts lines 175-234, identical in
src/unnamed/part_000 lines 193-253): first the column-win scan emitting
events, then the three payline rows.  Returns the emitted events and the
winning lines. -/
def calculateWins (reelSymbols : List (List String)) :
    List ColumnWinEvent × List WinLine :=
  (columnWinEvents reelSymbols,
   (List.range 3).filterMap (fun row => evalLine row (rowLine reelSymbols row)))

/-- totalWin accumulation from SlotMachine.spin lines 129-132: the sum of
the payouts of the winning lines; columnWin events contribute nothing. -/
def totalWin (lines : List WinLine) : Nat :=
  (lines.map WinLine.payout).sum

/-!
The weighted sampler getRandomSymbol lives in src/unnamed/part_000 lines
173-187.  It reads config.weight from each catalog entry, but the
SYMBOLS_CONFIG actually present under src (assets.config.ts lines 53-72)
carries no weight field at all: the weighted catalog revision this code
compiled against is code of this repository missing from src.  Modelled
from the spec: every catalog entry carries a positive weight and the
weights sum is positive, so the catalog is modelled abstractly as a list
of (id, weight) pairs, and the theorems about the sampler carry the
positivity of the weights as a hypothesis.
-/

/-- The subtraction loop of getRandomSymbol (part_000 lines 181-184):
random -= config.weight; if random <= 0 return key. -/
def getRandomSymbolGo : List (String × ℚ) → ℚ → Option String
  | [], _ => none
  | (key, w) :: rest, r =>
    if r - w ≤ 0 then some key else getRandomSymbolGo rest (r - w)

/-- getRandomSymbol (part_000 lines 173-187): runs the subtraction loop
over the catalog entries and falls back to the first entry key when the
loop runs off the end. -/
def getRandomSymbol (entries : List (String × ℚ)) (r : ℚ) : String :=
  (getRandomSymbolGo entries r).getD (entries.headD ("", 0)).1

/-- totalWeight from part_000 lines 175-178: the sum of all weights. -/
def totalWeight (entries : List (String × ℚ)) : ℚ :=
  (entries.map Prod.snd).sum

/-- Sum of the first k weights, used to state where the subtraction loop
stops. -/
def cumWeight (entries : List (String × ℚ)) (k : Nat) : ℚ :=
  ((entries.map Prod.snd).take k).sum

/-- One reel of the weighted generator, part_000 lines 154-161: the inner
row loop draws getRandomSymbol once per cell.  Math.random() calls are
modelled as a stream rs indexed by consumption order, and the draw passed
to the subtraction loop is rs ctr * totalWeight as in line 179.  The
first argument of the recursion is the number of rows still to fill. -/
def genReelWeighted (entries : List (String × ℚ)) (rs : Nat → ℚ) :
    Nat → Nat → List String
  | 0, _ => []
  | j + 1, ctr =>
    getRandomSymbol entries (rs ctr * totalWeight entries) ::
      genReelWeighted entries rs j (ctr + 1)

/-- The outer reel loop of the weighted generator, threading the draw
counter: each reel consumes exactly three draws. -/
def genGridWeightedGo (entries : List (String × ℚ)) (rs : Nat → ℚ) :
    Nat → Nat → List (List String)
  | 0, _ => []
  | k + 1, ctr =>
    genReelWeighted entries rs 3 ctr ::
      genGridWeightedGo entries rs k (ctr + 3)

/-- generateSpinOutcome from src/unnamed/part_000 lines 151-168: a 5 by 3
grid where every cell is a weighted draw. -/
def generateSpinOutcomeWeighted (entries : List (String × ℚ))
    (rs : Nat → ℚ) : List (List String) :=
  genGridWeightedGo entries rs 5 0

/-- Math.floor(r * n) as a natural index, for the uniform draw
symbolKeys[Math.floor(Math.random() * symbolKeys.length)].  Rat.floor is
the computable floor on rationals. -/
def uniformIndex (r : ℚ) (n : Nat) : Nat :=
  (Rat.floor (r * n)).toNat

/-- One reel of generateSpinOutcome from src/src/components/SlotMachine.ts
lines 141-169.  That revision fixes forceWin = true, winningReel = 0 and
winSymbol = MAN, so reel 0 pushes MAN for every row without consuming a
random draw, while other reels draw a uniform index into symbolKeys.  The
function returns the reel and the updated draw counter. -/
def genReelSrc (rs : Nat → ℚ) (i : Nat) : Nat → Nat → List String × Nat
  | 0, ctr => ([], ctr)
  | j + 1, ctr =>
    if i = 0 then
      let p := genReelSrc rs i j ctr
      ("MAN" :: p.1, p.2)
    else
      let s := symbolKeys.getD (uniformIndex (rs ctr) symbolKeys.length) ""
      let p := genReelSrc rs i j (ctr + 1)
      (s :: p.1, p.2)

/-- The outer reel loop of the src revision generator. -/
def genGridSrcGo (rs : Nat → ℚ) : List Nat → Nat → List (List String)
  | [], _ => []
  | i :: rest, ctr =>
    let p := genReelSrc rs i 3 ctr
    p.1 :: genGridSrcGo rs rest p.2

/-- generateSpinOutcome from src/src/components/SlotMachine.ts lines
141-169 (the forceWin revision), over the Math.random() stream rs. -/
def generateSpinOutcomeSrc (rs : Nat → ℚ) : List (List String) :=
  genGridSrcGo rs (List.range 5) 0

/-!
Reel model.  Reel.ts holds two revisions of the class.  The first
revision (file lines 10-258, called A below) carries a spin direction and
an addedCount injection counter, and its snapping phase eases the symbols
sorted by vertical position.  The second revision (file lines 269-489,
called B below) has no direction, eases symbols by buffer index, and its
stop routine rebinds the final visible symbols to the target list.
Vertical positions are reel-local rationals; SYMBOL_SIZE is 150 (the
exported constant of revision B and the default of layout.config.ts used
by revision A), VISIBLE_SYMBOLS is 3 and EXTRA_SYMBOLS is 2.
-/

/-- Math.abs on rationals. -/
def ratAbs (x : ℚ) : ℚ := if x < 0 then -x else x

/-- One easing assignment of the snapping phase (Reel.ts lines 117-122 in
revision A and 367-372 in revision B): while the distance to the slot
exceeds 0.5 the position moves by a 0.2 * delta fraction of the remaining
distance, otherwise it is set to the slot exactly. -/
def easeStep (y target delta : ℚ) : ℚ :=
  if ratAbs (y - target) > 1 / 2 then y + (target - y) * (1 / 5) * delta
  else target

/-- A Symbol instance: its bound type, bound value, and vertical
position.  Sprite and texture handles are not modelled; setTexture
rebinds type and value. -/
structure Sym where
  symbolType : String
  value : Nat
  y : ℚ
deriving DecidableEq, Repr

/-- State of revision B of the Reel (Reel.ts lines 269-489). -/
structure ReelBState where
  symbols : List Sym
  isSpinning : Bool
  spinSpeed : ℚ
  targetSymbols : List String
  isSlowingDown : Bool
  isStopping : Bool
deriving DecidableEq, Repr

namespace ReelB

/-- Reel.spin, lines 338-343: set the spinning flag, clear the slowing
and stopping flags, reset the speed.  The target list is not touched. -/
def spin (s : ReelBState) : ReelBState :=
  { s with isSpinning := true, isSlowingDown := false,
           isStopping := false, spinSpeed := 0 }

/-- Reel.setTargetSymbols, lines 346-356: reject any list whose length is
not VISIBLE_SYMBOLS (console.error, then return), otherwise record the
list and raise the slowing flag. -/
def setTargetSymbols (s : ReelBState) (targets : List String) : ReelBState :=
  if targets.length ≠ 3 then s
  else { s with targetSymbols := targets, isSlowingDown := true }

/-- Reel.stop, lines 455-478: clear all flags and the speed, then, when a
full target list is recorded, rebind the symbols at buffer indices
startIndex .. startIndex + 2 (startIndex = length - VISIBLE - EXTRA,
guarded to the valid range as in the source) to the target keys. -/
def stop (s : ReelBState) : ReelBState :=
  let s1 : ReelBState :=
    { s with isSpinning := false, isSlowingDown := false,
             isStopping := false, spinSpeed := 0 }
  if s1.targetSymbols.length = 3 then
    let startIndex : ℤ := (s1.symbols.length : ℤ) - 3 - 2
    { s1 with symbols := s1.symbols.enum.map (fun p =>
        let j : ℤ := (p.1 : ℤ) - startIndex
        if 0 ≤ j ∧ j < 3 then
          let key := s1.targetSymbols.getD j.toNat ""
          { symbolType := key, value := (symbolValue key).getD 0, y := p.2.y }
        else p.2) }
  else s1

/-- The movement line 402: every symbol moves down by spinSpeed * delta. -/
def moveSymbols (s : ReelBState) (delta : ℚ) : ReelBState :=
  { s with symbols := s.symbols.map (fun sym => { sym with y := sym.y + s.spinSpeed * delta }) }

/-- Reel.recycleSymbols, lines 409-452: when the buffer head has moved
past SYMBOL_SIZE * (VISIBLE + EXTRA - 1), shift it off and push one new
symbol 150 above the tail; while slowing with a recorded target list the
new type comes from the target list at index (length - EXTRA) mod
targets.length computed after the shift, otherwise from a random catalog
index.  The source reads symbols[0] and symbols[length - 1] and so
requires at least two symbols; the empty case returns unchanged and the
default of getLastD is never taken at the buffer sizes the invariants
give. -/
def recycleSymbols (s : ReelBState) (randomIndex : Nat) : ReelBState :=
  match s.symbols with
  | [] => s
  | first :: rest =>
    if first.y > 150 * (3 + 2 - 1) then
      let last := rest.getLastD first
      let newSym : Sym :=
        if s.isSlowingDown = true ∧ 0 < s.targetSymbols.length then
          let nextIndex := (rest.length - 2) % s.targetSymbols.length
          let key := s.targetSymbols.getD nextIndex ""
          { symbolType := key, value := (symbolValue key).getD 0,
            y := last.y - 150 }
        else
          { symbolType := symbolKeys.getD randomIndex ""
            value := symbolValues.getD randomIndex 0
            y := last.y - 150 }
      { s with symbols := rest ++ [newSym] }
    else s

/-- Reel.update, lines 359-406.  Outside any motion it returns unchanged.
In the stopping phase every symbol at buffer index i eases toward slot
i * 150 and, when all symbols were already within 0.5 of their slot (so
the pass set each exactly), stop runs in the same tick.  Otherwise the
speed accelerates by 2 up to 50 unless slowing, decelerates by 1 down to
0 when slowing, the phase flips to stopping the tick the speed reaches 0,
and otherwise the symbols move and recycle.  The random index consumed by
a recycle during free spin is passed in as randomIndex. -/
def update (s : ReelBState) (delta : ℚ) (randomIndex : Nat) : ReelBState :=
  if s.isSpinning = false ∧ s.isStopping = false then s
  else if s.isStopping = true then
    let moved := s.symbols.enum.map (fun p =>
      { p.2 with y := easeStep p.2.y (p.1 * 150) delta })
    let allInPlace := s.symbols.enum.all (fun p =>
      ratAbs (p.2.y - p.1 * 150) ≤ 1 / 2)
    let s1 := { s with symbols := moved }
    if allInPlace then stop s1 else s1
  else
    let s1 :=
      if s.isSlowingDown = false ∧ s.spinSpeed < 50 then
        { s with spinSpeed := min (s.spinSpeed + 2) 50 }
      else s
    if s1.isSlowingDown = true then
      let s2 := { s1 with spinSpeed := max (s1.spinSpeed - 1) 0 }
      if s2.spinSpeed = 0 ∧ s2.isStopping = false then
        { s2 with isSpinning := false, isStopping := true }
      else recycleSymbols (moveSymbols s2 delta) randomIndex
    else recycleSymbols (moveSymbols s1 delta) randomIndex

/-- Reel.getVisibleSymbols, lines 481-483: the first VISIBLE_SYMBOLS
entries of the buffer. -/
def getVisibleSymbols (s : ReelBState) : List Sym :=
  s.symbols.take 3

end ReelB

/-- State of revision A of the Reel (Reel.ts lines 10-258), which also
carries the spin direction and the addedCount injection counter. -/
structure ReelAState where
  symbols : List Sym
  isSpinning : Bool
  spinSpeed : ℚ
  direction : ℤ
  targetSymbols : List String
  addedCount : Nat
  isSlowingDown : Bool
  isStopping : Bool
deriving DecidableEq, Repr

namespace ReelA

/-- Reel.spin, lines 86-91: identical to revision B; direction,
addedCount and the target list are not touched. -/
def spin (s : ReelAState) : ReelAState :=
  { s with isSpinning := true, isSlowingDown := false,
           isStopping := false, spinSpeed := 0 }

/-- Reel.setTargetSymbols, lines 94-105: reject any list whose length is
not VISIBLE_SYMBOLS (console.error, then return; nothing else is
written), otherwise record the list, reset the injection counter and
raise the slowing flag. -/
def setTargetSymbols (s : ReelAState) (targets : List String) : ReelAState :=
  if targets.length ≠ 3 then s
  else { s with targetSymbols := targets, addedCount := 0,
                isSlowingDown := true }

/-- The movement line 168-170: every symbol moves by
spinSpeed * delta * direction. -/
def moveSymbols (s : ReelAState) (delta : ℚ) : ReelAState :=
  { s with symbols := s.symbols.map (fun sym =>
      { sym with y := sym.y + s.spinSpeed * delta * (s.direction : ℚ) }) }

/-- The recycle condition of lines 178-197: past the far edge of the
buffer span on the side given by the spin direction. -/
def recycleTrigger (s : ReelAState) (first : Sym) : Bool :=
  if s.direction = 1 then first.y > 150 * (3 + 2 - 1)
  else first.y < -150

/-- Reel.recycleSymbols together with addNewSymbolAtBottom, lines
177-238.  The head is shifted off once it leaves the buffer span on the
side given by the direction, and one new symbol is pushed at the other
end (below the tail for direction -1, above it for direction 1).  While
slowing with a recorded target list the new type is
targetSymbols[length - 1 - addedCount] and the counter increments; once
addedCount reaches the list length that index is negative, the source
reads an undefined entry and throws a TypeError at cfg.filename AFTER
shift() has already removed the head, so the reel object is left with
the shortened buffer and an unchanged counter.  A thrown exception is
modelled as Except.error carrying the state the object is left in:
reading an empty buffer throws before any mutation, a missing tail or a
target key absent from SYMBOLS_CONFIG throws after the shift, and the
exhausted-target index throws after the shift. -/
def recycleSymbols (s : ReelAState) (randomIndex : Nat) :
    Except ReelAState ReelAState :=
  match s.symbols with
  | [] => .error s
  | first :: rest =>
    if recycleTrigger s first then
      match rest.getLast? with
      | none => .error { s with symbols := rest }
      | some last =>
        let ny := last.y + (if s.direction = 1 then (-150 : ℚ) else 150)
        if s.isSlowingDown = true ∧ 0 < s.targetSymbols.length then
          if s.addedCount < s.targetSymbols.length then
            let nextIndex := s.targetSymbols.length - 1 - s.addedCount
            let key := s.targetSymbols.getD nextIndex ""
            match symbolValue key with
            | none => .error { s with symbols := rest }
            | some v =>
              .ok { s with
                symbols := rest ++ [{ symbolType := key, value := v, y := ny }]
                addedCount := s.addedCount + 1 }
          else .error { s with symbols := rest }
        else
          .ok { s with symbols := rest ++
            [{ symbolType := symbolKeys.getD randomIndex ""
               value := symbolValues.getD randomIndex 0
               y := ny }] }
    else .ok s

/-- The rank of buffer position p under the stable sort of the symbols
by vertical position (Array.prototype.sort with comparator a.y - b.y,
stable per the JS specification): the number of positions that come
strictly before p in the order (y, original index). -/
def rankOfY (ys : List ℚ) (p : Nat) : Nat :=
  ((List.range ys.length).filter (fun q =>
    ys.getD q 0 < ys.getD p 0 ∨ (ys.getD q 0 = ys.getD p 0 ∧ q < p))).length

/-- Insertion of a buffer position into a position list sorted by the
total order (y, original index). -/
def insertByY (ys : List ℚ) (p : Nat) : List Nat → List Nat
  | [] => [p]
  | q :: rest =>
    if ys.getD q 0 < ys.getD p 0 ∨ (ys.getD q 0 = ys.getD p 0 ∧ q < p) then
      q :: insertByY ys p rest
    else p :: q :: rest

/-- Sorting a position list by the total order (y, original index): the
stable sort by y of the JS source, expressed without ties. -/
def sortByY (ys : List ℚ) (ps : List Nat) : List Nat :=
  ps.foldr (insertByY ys) []

/-- The buffer positions of the symbols visible at the speed-zero tick
(lines 149-151): those with 0 <= y < VISIBLE_SYMBOLS * SYMBOL_SIZE,
in ascending y order (stable sort). -/
def visiblePositions (symbols : List Sym) : List Nat :=
  sortByY (symbols.map Sym.y)
    ((List.range symbols.length).filter (fun p =>
      0 ≤ (symbols.getD p ⟨"", 0, 0⟩).y ∧
        (symbols.getD p ⟨"", 0, 0⟩).y < 3 * 150))

/-- The rebind loop at lines 152-162: for i below both the visible count
and VISIBLE_SYMBOLS, the i-th visible symbol is rebound to
targetSymbols[i].  An index beyond the target list, or a key absent from
SYMBOLS_CONFIG, makes cfg undefined and the source throws at
cfg.filename, with the rebinds of earlier iterations already applied;
the error carries the partially rebound buffer. -/
def rebindGo (targets : List String) :
    List Nat → Nat → List Sym → Except (List Sym) (List Sym)
  | [], _, syms => .ok syms
  | p :: ps, i, syms =>
    if i < 3 then
      if i < targets.length then
        let key := targets.getD i ""
        match symbolValue key with
        | none => .error syms
        | some v =>
          rebindGo targets ps (i + 1)
            (syms.set p { symbolType := key, value := v,
                          y := (syms.getD p ⟨"", 0, 0⟩).y })
      else .error syms
    else .ok syms

/-- The speed-zero transition of Reel.update, lines 144-163: the
spinning flag drops, the stopping flag rises, and the currently visible
symbols (by vertical position) are rebound to the target list
top-to-bottom. -/
def enterStopping (s : ReelAState) : Except ReelAState ReelAState :=
  let s1 : ReelAState := { s with isSpinning := false, isStopping := true }
  match rebindGo s1.targetSymbols (visiblePositions s1.symbols) 0 s1.symbols with
  | .ok syms => .ok { s1 with symbols := syms }
  | .error syms => .error { s1 with symbols := syms }

/-- Reel.stop, lines 241-247: clear the flags and the speed.  This
revision rebinds nothing at stop time. -/
def stop (s : ReelAState) : ReelAState :=
  { s with isSpinning := false, isSlowingDown := false,
           isStopping := false, spinSpeed := 0 }

/-- Reel.update of revision A, lines 108-174.  Outside any motion it
returns unchanged.  In the stopping phase the symbols are sorted by
vertical position and each eases toward slot (sorted rank) * 150; when
every symbol was already within 0.5 of its rank slot the pass sets each
exactly and stop runs in the same tick.  Otherwise the speed accelerates
by 2 up to 50 unless slowing, decelerates by 1 down to 0 when slowing,
the tick the speed reaches 0 runs the enterStopping transition (which
rebinds the visible window), and otherwise the symbols move by
speed * delta * direction and recycle.  Exceptions thrown by the recycle
or rebind paths propagate as Except.error. -/
def update (s : ReelAState) (delta : ℚ) (randomIndex : Nat) :
    Except ReelAState ReelAState :=
  if s.isSpinning = false ∧ s.isStopping = false then .ok s
  else if s.isStopping = true then
    let ys := s.symbols.map Sym.y
    let moved := s.symbols.enum.map (fun p =>
      { p.2 with y := easeStep p.2.y (rankOfY ys p.1 * 150) delta })
    let allInPlace := s.symbols.enum.all (fun p =>
      ratAbs (p.2.y - rankOfY ys p.1 * 150) ≤ 1 / 2)
    let s1 := { s with symbols := moved }
    .ok (if allInPlace then stop s1 else s1)
  else
    let s1 :=
      if s.isSlowingDown = false ∧ s.spinSpeed < 50 then
        { s with spinSpeed := min (s.spinSpeed + 2) 50 }
      else s
    if s1.isSlowingDown = true then
      let s2 := { s1 with spinSpeed := max (s1.spinSpeed - 1) 0 }
      if s2.spinSpeed = 0 ∧ s2.isStopping = false then enterStopping s2
      else recycleSymbols (moveSymbols s2 delta) randomIndex
    else recycleSymbols (moveSymbols s1 delta) randomIndex

/-- Reel.getVisibleSymbols, lines 250-252: the first VISIBLE_SYMBOLS
entries of the buffer. -/
def getVisibleSymbols (s : ReelAState) : List Sym :=
  s.symbols.take 3

end ReelA

/-- SpinResult record from SlotMachine.ts lines 6-10. -/
structure SpinResult where
  reelSymbols : List (List String)
  winningLines : List WinLine
  totalWin : Nat
deriving DecidableEq, Repr

/-- The empty result returned by the re-entrancy guard (SlotMachine.ts
lines 95-99). -/
def emptySpinResult : SpinResult :=
  { reelSymbols := [], winningLines := [], totalWin := 0 }

/-- The SlotMachine fields the spin path reads and writes. -/
structure SlotMachineState where
  isSpinning : Bool
  reels : List ReelBState
deriving DecidableEq

/-- SlotMachine.spin, src/src/components/SlotMachine.ts lines 92-135,
condensed to a pure function.  The awaited delays suspend but mutate
nothing themselves; in program order the method runs the re-entrancy
guard, raises the in-flight flag, issues spin to every reel, generates
the outcome grid, issues setTargetSymbols per reel, waits for the reels
to stop, evaluates the wins and clears the flag.  The per-frame reel
animation between these steps is driven externally through update and is
abstracted as the function animate applied between the staggered command
rounds; rs is the Math.random() stream of the outcome generator. -/
def SlotMachine.spin (rs : Nat → ℚ)
    (animate : List ReelBState → List ReelBState)
    (s : SlotMachineState) : SlotMachineState × SpinResult :=
  if s.isSpinning = true then (s, emptySpinResult)
  else
    let reels1 := s.reels.map ReelB.spin
    let grid := generateSpinOutcomeSrc rs
    let reels2 := animate reels1
    let reels3 := reels2.enum.map (fun p =>
      ReelB.setTargetSymbols p.2 (grid.getD p.1 []))
    let reels4 := animate reels3
    let lines := (calculateWins grid).2
    ({ isSpinning := false, reels := reels4 },
     { reelSymbols := grid, winningLines := lines, totalWin := totalWin lines })

/-- ratAbs agrees with the Mathlib absolute value. -/
theorem ratAbs_eq_abs (x : ℚ) : ratAbs x = |x| := by
  unfold ratAbs
  rcases lt_or_le x 0 with h | h
  · rw [if_pos h, abs_of_neg h]
  · rw [if_neg (not_lt.mpr h), abs_of_nonneg h]

/-- C4: for every grid row of the form [A, A, WILD, B, A] with A and B
distinct non-wild symbols and A a catalog symbol of value v, the payline
scan counts the contiguous run from the left where each symbol equals the
first symbol or is WILD, stops at the first mismatch B, reports run
length 3 with payout v * 3, and lists the wild occurrence inside the run
as the matched symbol A. -/
theorem payline_wild_run (r : Nat) (A B : String) (v : Nat)
    (hA : A ≠ "WILD") (hB : B ≠ "WILD") (hBA : B ≠ A)
    (hv : symbolValue A = some v) :
    evalLine r [A, A, "WILD", B, A] =
      some { lineNumber := r + 1, symbols := [A, A, A], count := 3,
             payout := v * 3 } := by
  simp [evalLine, matchCountGo, hA, hB, hBA, hv]

/-- Witness for C4 at A = BOOTS (value 75), B = SNAKE, row 0. -/
theorem payline_wild_run_witness :
    (("BOOTS" : String) ≠ "WILD" ∧ ("SNAKE" : String) ≠ "WILD" ∧
      ("SNAKE" : String) ≠ "BOOTS" ∧ symbolValue "BOOTS" = some 75) ∧
    evalLine 0 ["BOOTS", "BOOTS", "WILD", "SNAKE", "BOOTS"] =
      some { lineNumber := 1, symbols := ["BOOTS", "BOOTS", "BOOTS"],
             count := 3, payout := 75 * 3 } :=
  ⟨⟨by decide, by decide, by decide, by rfl⟩,
   payline_wild_run 0 "BOOTS" "SNAKE" 75 (by decide) (by decide)
     (by decide) rfl⟩

/-- C7: for every list whose length differs from the visible-row count 3,
setTargetSymbols of either Reel revision only logs and is a no-op: the
whole state, and in particular the target list, the injection counter,
the motion flags, the velocity and the symbol buffer, is returned exactly
as it was. -/
theorem setTargetSymbols_bad_length (sA : ReelAState) (sB : ReelBState)
    (ts : List String) (h : ts.length ≠ 3) :
    ReelA.setTargetSymbols sA ts = sA ∧
    (ReelA.setTargetSymbols sA ts).targetSymbols = sA.targetSymbols ∧
    (ReelA.setTargetSymbols sA ts).addedCount = sA.addedCount ∧
    (ReelA.setTargetSymbols sA ts).isSpinning = sA.isSpinning ∧
    (ReelA.setTargetSymbols sA ts).isSlowingDown = sA.isSlowingDown ∧
    (ReelA.setTargetSymbols sA ts).isStopping = sA.isStopping ∧
    (ReelA.setTargetSymbols sA ts).spinSpeed = sA.spinSpeed ∧
    (ReelA.setTargetSymbols sA ts).symbols = sA.symbols ∧
    ReelB.setTargetSymbols sB ts = sB := by
  simp [ReelA.setTargetSymbols, ReelB.setTargetSymbols, h]

/-- Witness for C7: a length-1 target list on a concrete reel state. -/
theorem setTargetSymbols_bad_length_witness :
    ((["SNAKE"] : List String).length ≠ 3) ∧
    ReelA.setTargetSymbols
      ⟨[⟨"MAN", 500, 0⟩], true, 7, 1, ["WILD", "WILD", "WILD"], 2, true, false⟩
      ["SNAKE"] =
      ⟨[⟨"MAN", 500, 0⟩], true, 7, 1, ["WILD", "WILD", "WILD"], 2, true, false⟩ :=
  ⟨by decide,
   (setTargetSymbols_bad_length
     ⟨[⟨"MAN", 500, 0⟩], true, 7, 1, ["WILD", "WILD", "WILD"], 2, true, false⟩
     ⟨[], false, 0, [], false, false⟩ ["SNAKE"] (by decide)).1⟩

/-- C8 counterexample: spin does not clear a stale target list.  A reel
at rest with the leftover list [SNAKE, SNAKE, SNAKE] from the previous
spin keeps exactly that list after spin is called, in both revisions, so
the stale-list part of the claim fails on the code. -/
theorem spin_keeps_stale_targets :
    (ReelA.spin
        ⟨[], false, 0, 1, ["SNAKE", "SNAKE", "SNAKE"], 3, false, false⟩).targetSymbols
        = ["SNAKE", "SNAKE", "SNAKE"] ∧
    (ReelB.spin
        ⟨[], false, 0, ["SNAKE", "SNAKE", "SNAKE"], false, false⟩).targetSymbols
        = ["SNAKE", "SNAKE", "SNAKE"] ∧
    (["SNAKE", "SNAKE", "SNAKE"] : List String) ≠ [] := by
  refine ⟨rfl, rfl, by decide⟩

/-- C8 as amended: calling spin resets the velocity to 0 and clears the
slowing and stopping flags before the accelerating phase, but leaves the
stale target-symbol list (and, in revision A, the direction and the
injection counter) unchanged. -/
theorem spin_resets_velocity (sA : ReelAState) (sB : ReelBState) :
    ReelA.spin sA =
      { sA with isSpinning := true, isSlowingDown := false,
                isStopping := false, spinSpeed := 0 } ∧
    (ReelA.spin sA).spinSpeed = 0 ∧
    (ReelA.spin sA).targetSymbols = sA.targetSymbols ∧
    ReelB.spin sB =
      { sB with isSpinning := true, isSlowingDown := false,
                isStopping := false, spinSpeed := 0 } ∧
    (ReelB.spin sB).spinSpeed = 0 ∧
    (ReelB.spin sB).targetSymbols = sB.targetSymbols := by
  refine ⟨rfl, rfl, rfl, rfl, rfl, rfl⟩

/-- C9 counterexample: the claim quantifies over every positive tick
delta, but at delta = 10 the easing factor is 0.2 * 10 = 2 and an easing
tick from position 0 toward slot 150 lands at 300: the distance to the
slot is not strictly reduced. -/
theorem easing_not_contracting_at_delta_ten :
    (0 : ℚ) < 10 ∧ ratAbs ((0 : ℚ) - 150) > 1 / 2 ∧
    ¬ ratAbs (easeStep 0 150 10 - 150) < ratAbs ((0 : ℚ) - 150) := by
  refine ⟨by norm_num, ?_, ?_⟩ <;> norm_num [easeStep, ratAbs]

/-- C9 as amended: an easing tick multiplies the distance to the slot by
the exact factor |1 - delta / 5|, so it strictly reduces the distance for
every delta strictly between 0 and 10 (which covers the frame deltas the
ticker produces), and the snapping loop converges for such deltas; for
delta of 10 or more the tick does not reduce the distance. -/
theorem easing_contracts_for_small_delta (y t d : ℚ)
    (hfar : ratAbs (y - t) > 1 / 2) (h0 : 0 < d) (h10 : d < 10) :
    ratAbs (easeStep y t d - t) = ratAbs (1 - d / 5) * ratAbs (y - t) ∧
    ratAbs (easeStep y t d - t) < ratAbs (y - t) := by
  have hstep : easeStep y t d - t = (1 - d / 5) * (y - t) := by
    unfold easeStep
    rw [if_pos hfar]
    ring
  have hfac : ratAbs (1 - d / 5) < 1 := by
    rw [ratAbs_eq_abs, abs_lt]
    constructor <;> linarith
  have heq : ratAbs (easeStep y t d - t) = ratAbs (1 - d / 5) * ratAbs (y - t) := by
    rw [hstep, ratAbs_eq_abs, ratAbs_eq_abs, ratAbs_eq_abs, abs_mul]
  refine ⟨heq, ?_⟩
  rw [heq]
  have hpos : 0 < ratAbs (y - t) := lt_trans (by norm_num) hfar
  exact mul_lt_of_lt_one_left hpos hfac

/-- Witness for C9 as amended, at y = 0, slot 150, delta = 1. -/
theorem easing_contracts_witness :
    (ratAbs ((0 : ℚ) - 150) > 1 / 2 ∧ (0 : ℚ) < 1 ∧ (1 : ℚ) < 10) ∧
    ratAbs (easeStep 0 150 1 - 150) < ratAbs ((0 : ℚ) - 150) :=
  ⟨⟨by norm_num [ratAbs], by norm_num, by norm_num⟩,
   (easing_contracts_for_small_delta 0 150 1 (by norm_num [ratAbs])
     (by norm_num) (by norm_num)).2⟩

/-- C6: calling SlotMachine.spin while a spin is already in flight
returns immediately with the empty result (empty grid, no winning lines,
zero total win) and leaves the machine state, and with it the in-flight
spin and its eventual outcome, exactly as it was. -/
theorem spin_reentrancy (rs : Nat → ℚ)
    (animate : List ReelBState → List ReelBState)
    (s : SlotMachineState) (h : s.isSpinning = true) :
    SlotMachine.spin rs animate s = (s, emptySpinResult) ∧
    emptySpinResult.reelSymbols = [] ∧
    emptySpinResult.winningLines = [] ∧
    emptySpinResult.totalWin = 0 := by
  refine ⟨?_, rfl, rfl, rfl⟩
  simp [SlotMachine.spin, h]

/-- Witness for C6 on a concrete in-flight machine state. -/
theorem spin_reentrancy_witness :
    ((⟨true, []⟩ : SlotMachineState).isSpinning = true) ∧
    SlotMachine.spin (fun _ => 0) id ⟨true, []⟩ = (⟨true, []⟩, emptySpinResult) :=
  ⟨rfl, (spin_reentrancy (fun _ => 0) id ⟨true, []⟩ rfl).1⟩

theorem cumWeight_zero (entries : List (String × ℚ)) :
    cumWeight entries 0 = 0 := by
  simp [cumWeight]

theorem cumWeight_cons (e : String × ℚ) (entries : List (String × ℚ))
    (k : Nat) : cumWeight (e :: entries) (k + 1) = e.2 + cumWeight entries k := by
  simp [cumWeight]

theorem totalWeight_cons (e : String × ℚ) (entries : List (String × ℚ)) :
    totalWeight (e :: entries) = e.2 + totalWeight entries := by
  simp [totalWeight]

/-- The subtraction loop returns the entry at the first index k whose
cumulative weight reaches the draw, for every draw inside the total
weight. -/
theorem getRandomSymbolGo_spec (entries : List (String × ℚ)) (r : ℚ)
    (h0 : 0 ≤ r) (h1 : r < totalWeight entries) :
    ∃ k, k < entries.length ∧
      getRandomSymbolGo entries r = some (entries.getD k ("", 0)).1 ∧
      r ≤ cumWeight entries (k + 1) ∧
      ∀ j, j < k → cumWeight entries (j + 1) < r := by
  induction entries generalizing r with
  | nil =>
    exfalso
    rw [totalWeight] at h1
    simp at h1
    linarith
  | cons e rest ih =>
    rcases e with ⟨key, w⟩
    by_cases hle : r - w ≤ 0
    · refine ⟨0, by simp, ?_, ?_, by omega⟩
      · simp [getRandomSymbolGo, hle]
      · rw [cumWeight_cons, cumWeight_zero]
        simpa using by linarith
    · push_neg at hle
      have h0' : 0 ≤ r - w := by linarith
      have h1' : r - w < totalWeight rest := by
        rw [totalWeight_cons] at h1
        linarith
      obtain ⟨k, hk, hgo, hub, hlb⟩ := ih (r - w) h0' h1'
      refine ⟨k + 1, by simpa using hk, ?_, ?_, ?_⟩
      · simpa [getRandomSymbolGo, not_le.mpr (by linarith : (0 : ℚ) < r - w)]
          using hgo
      · rw [cumWeight_cons]
        linarith
      · intro j hj
        cases j with
        | zero =>
          rw [cumWeight_cons, cumWeight_zero]
          simpa using by linarith
        | succ j =>
          have := hlb j (by omega)
          rw [cumWeight_cons]
          linarith

/-- The step from the cumulative weight at k to the one at k + 1 is
exactly the weight of entry k. -/
theorem cumWeight_succ (entries : List (String × ℚ)) (k : Nat)
    (hk : k < entries.length) :
    cumWeight entries (k + 1) = cumWeight entries k + (entries.getD k ("", 0)).2 := by
  induction entries generalizing k with
  | nil => simp at hk
  | cons e rest ih =>
    cases k with
    | zero => simp [cumWeight_cons, cumWeight_zero]
    | succ k =>
      rw [cumWeight_cons, cumWeight_cons, ih k (by simpa using hk)]
      simp [add_assoc]

/-- C3: the weighted sampler, run on a catalog of positively weighted
entries (modelled from the spec, since the SYMBOLS_CONFIG under src
carries no weight field) and a draw r in [0, totalWeight), returns the id
of the unique entry k whose cumulative-weight interval contains the draw:
the single subtraction pass stops at the first entry driving the running
threshold to zero or below, the interval selecting entry k has length
exactly its weight (so the selection probability of an entry under a
uniform draw is proportional to weight / totalWeight), and the returned
id is a function of the catalog ordering and the draw alone. -/
theorem weightedSample_spec (entries : List (String × ℚ)) (r : ℚ)
    (hw : ∀ p ∈ entries, 0 < p.2) (h0 : 0 ≤ r)
    (h1 : r < totalWeight entries) :
    ∃ k, k < entries.length ∧
      getRandomSymbol entries r = (entries.getD k ("", 0)).1 ∧
      r ≤ cumWeight entries (k + 1) ∧
      (∀ j, j < k → cumWeight entries (j + 1) < r) ∧
      cumWeight entries (k + 1) = cumWeight entries k + (entries.getD k ("", 0)).2 ∧
      cumWeight entries k < cumWeight entries (k + 1) ∧
      (∀ k', (r ≤ cumWeight entries (k' + 1) ∧
        ∀ j, j < k' → cumWeight entries (j + 1) < r) → k' = k) := by
  obtain ⟨k, hk, hgo, hub, hlb⟩ := getRandomSymbolGo_spec entries r h0 h1
  have hmem : entries.getD k ("", 0) ∈ entries := by
    rw [List.getD_eq_getElem _ _ hk]
    exact List.getElem_mem hk
  refine ⟨k, hk, ?_, hub, hlb, cumWeight_succ entries k hk, ?_, ?_⟩
  · rw [getRandomSymbol, hgo]
    rfl
  · rw [cumWeight_succ entries k hk]
    have := hw _ hmem
    linarith
  · intro k' ⟨hub', hlb'⟩
    rcases Nat.lt_trichotomy k' k with h | h | h
    · exact absurd hub' (not_le.mpr (hlb k' h))
    · exact h
    · exact absurd hub (not_le.mpr (hlb' k h))

/-- Witness for C3 on the two-entry catalog [(A, 2), (B, 3)] with the
draw 4, which selects entry 1. -/
theorem weightedSample_spec_witness :
    ((∀ p ∈ [(("A" : String), (2 : ℚ)), ("B", 3)], 0 < p.2) ∧
      (0 : ℚ) ≤ 4 ∧ (4 : ℚ) < totalWeight [("A", 2), ("B", 3)]) ∧
    (∃ k, k < ([(("A" : String), (2 : ℚ)), ("B", 3)]).length ∧
      getRandomSymbol [("A", 2), ("B", 3)] 4 =
        (([(("A" : String), (2 : ℚ)), ("B", 3)]).getD k ("", 0)).1 ∧
      (4 : ℚ) ≤ cumWeight [("A", 2), ("B", 3)] (k + 1) ∧
      (∀ j, j < k → cumWeight [("A", 2), ("B", 3)] (j + 1) < 4) ∧
      cumWeight [("A", 2), ("B", 3)] (k + 1) =
        cumWeight [("A", 2), ("B", 3)] k +
          (([(("A" : String), (2 : ℚ)), ("B", 3)]).getD k ("", 0)).2 ∧
      cumWeight [("A", 2), ("B", 3)] k < cumWeight [("A", 2), ("B", 3)] (k + 1) ∧
      (∀ k', ((4 : ℚ) ≤ cumWeight [("A", 2), ("B", 3)] (k' + 1) ∧
        ∀ j, j < k' → cumWeight [("A", 2), ("B", 3)] (j + 1) < 4) → k' = k)) :=
  ⟨⟨by decide, by norm_num, by norm_num [totalWeight]⟩,
   weightedSample_spec [("A", 2), ("B", 3)] 4 (by decide) (by norm_num)
     (by norm_num [totalWeight])⟩

/-- Closed form of the counter-threaded weighted generator: cell (i, j)
is the weighted draw on random value number 3 * i + j of the stream. -/
theorem weightedCell (entries : List (String × ℚ)) (rs : Nat → ℚ)
    (i j : Nat) (hi : i < 5) (hj : j < 3) :
    ((generateSpinOutcomeWeighted entries rs).getD i []).getD j "" =
      getRandomSymbol entries (rs (3 * i + j) * totalWeight entries) := by
  interval_cases i <;> interval_cases j <;>
    simp [generateSpinOutcomeWeighted, genGridWeightedGo, genReelWeighted]

/-- C2 as amended: in the weighted generator of src/unnamed/part_000,
every cell of the 5 by 3 grid is one weightedSample draw on a dedicated
random value (cell (i, j) uses draw number 3 * i + j), so a cell is a
function of its own draw alone and no two cells or reels share a draw; in
the forceWin revision of src/src/components/SlotMachine.ts the claim
fails, since reel 0 is fixed to MAN (see the counterexample). -/
theorem weighted_grid_independent_cells (entries : List (String × ℚ))
    (rs : Nat → ℚ) :
    (generateSpinOutcomeWeighted entries rs).length = 5 ∧
    (∀ i, i < 5 → ((generateSpinOutcomeWeighted entries rs).getD i []).length = 3) ∧
    (∀ i j, i < 5 → j < 3 →
      ((generateSpinOutcomeWeighted entries rs).getD i []).getD j "" =
        getRandomSymbol entries (rs (3 * i + j) * totalWeight entries)) ∧
    (∀ (rs' : Nat → ℚ) i j, i < 5 → j < 3 →
      rs (3 * i + j) = rs' (3 * i + j) →
      ((generateSpinOutcomeWeighted entries rs).getD i []).getD j "" =
        ((generateSpinOutcomeWeighted entries rs').getD i []).getD j "") := by
  refine ⟨by simp [generateSpinOutcomeWeighted, genGridWeightedGo], ?_, ?_, ?_⟩
  · intro i hi
    interval_cases i <;>
      simp [generateSpinOutcomeWeighted, genGridWeightedGo, genReelWeighted]
  · exact fun i j hi hj => weightedCell entries rs i j hi hj
  · intro rs' i j hi hj hdraw
    rw [weightedCell entries rs i j hi hj, weightedCell entries rs' i j hi hj,
      hdraw]

/-- Witness for C2 as amended: on a concrete catalog and stream, cell
(1, 2) equals the draw on random value number 5. -/
theorem weighted_grid_independent_cells_witness :
    ((1 : Nat) < 5 ∧ (2 : Nat) < 3) ∧
    ((generateSpinOutcomeWeighted [("A", 2), ("B", 3)] (fun n => n / 10)).getD 1 []).getD 2 "" =
      getRandomSymbol [("A", 2), ("B", 3)]
        ((fun n : Nat => (n : ℚ) / 10) (3 * 1 + 2) * totalWeight [("A", 2), ("B", 3)]) :=
  ⟨⟨by decide, by decide⟩,
   (weighted_grid_independent_cells [("A", 2), ("B", 3)] (fun n => n / 10)).2.2.1
     1 2 (by decide) (by decide)⟩

/-- C2 counterexample: the generateSpinOutcome revision in
src/src/components/SlotMachine.ts fixes reel 0 to MAN in advance.  Two
different Math.random() streams both produce the column [MAN, MAN, MAN]
on reel 0, while reel 1 follows the stream (all BAG_OF_GOLD on the
constant-0 stream, all SNAKE on the constant-one-half stream), so reel 0
is not filled by independent random draws and the claim as stated fails
on that revision. -/
theorem forced_column_counterexample :
    (generateSpinOutcomeSrc (fun _ => 0)).headD [] = ["MAN", "MAN", "MAN"] ∧
    (generateSpinOutcomeSrc (fun _ => 1 / 2)).headD [] = ["MAN", "MAN", "MAN"] ∧
    (generateSpinOutcomeSrc (fun _ => 0)).getD 1 [] =
      ["BAG_OF_GOLD", "BAG_OF_GOLD", "BAG_OF_GOLD"] ∧
    (generateSpinOutcomeSrc (fun _ => 1 / 2)).getD 1 [] =
      ["SNAKE", "SNAKE", "SNAKE"] := by
  have hidx0 : uniformIndex 0 12 = 0 := by
    simp only [uniformIndex, Nat.cast_ofNat, zero_mul]
    decide
  have hidx6 : uniformIndex 2⁻¹ 12 = 6 := by
    have h : (2⁻¹ : ℚ) * ((12 : ℕ) : ℚ) = 6 := by norm_num
    simp only [uniformIndex, h]
    decide
  refine ⟨rfl, rfl, ?_, ?_⟩ <;>
    simp [generateSpinOutcomeSrc, genGridSrcGo, genReelSrc, hidx0, hidx6,
      symbolKeys, SYMBOLS_CONFIG]

/-- Counting the columnWin events carrying a given reel index: the
filterMap of the column scan over an enumeration starting at n holds
exactly one event with index i when i names a reel in range whose column
passes isColumnWin, and none otherwise. -/
theorem columnWin_count_from (g : List (List String)) :
    ∀ n i : Nat,
    (((List.enumFrom n g).filterMap columnWinEvent).filter
        (fun e => e.reelIndex = i)).length =
      if n ≤ i ∧ i < n + g.length ∧ isColumnWin (g.getD (i - n) []) = true then 1
      else 0 := by
  induction g with
  | nil =>
    intro n i
    rw [if_neg (by rintro ⟨h1, h2, -⟩; simp at h2; omega)]
    simp
  | cons col rest ih =>
    intro n i
    rw [List.enumFrom_cons]
    simp only [List.length_cons]
    by_cases hc : isColumnWin col = true
    · have hfa : columnWinEvent (n, col) =
          some { reelIndex := n,
                 character := if col.headD "" = "MAN" then "Man" else "Woman" } := by
        simp [columnWinEvent, hc]
      rw [List.filterMap_cons_some hfa]
      by_cases hni : n = i
      · subst hni
        rw [List.filter_cons_of_pos (by simp), List.length_cons, ih (n + 1) n]
        rw [if_neg (by omega), if_pos ⟨Nat.le_refl n, by simp, by
          simpa [Nat.sub_self] using hc⟩]
      · rw [List.filter_cons_of_neg (by simp [hni]), ih (n + 1) i]
        by_cases hlt : n < i
        · have hshift : i - n = (i - (n + 1)) + 1 := by omega
          rw [hshift, List.getD_cons_succ]
          refine if_congr ?_ rfl rfl
          constructor
          · rintro ⟨h1, h2, h3⟩
            exact ⟨by omega, by omega, h3⟩
          · rintro ⟨h1, h2, h3⟩
            exact ⟨by omega, by omega, h3⟩
        · rw [if_neg (by omega), if_neg (by omega)]
    · have hfn : columnWinEvent (n, col) = none := by
        simp [columnWinEvent, hc]
      rw [List.filterMap_cons_none hfn, ih (n + 1) i]
      by_cases hni : n = i
      · subst hni
        rw [if_neg (by omega), if_neg]
        rintro ⟨-, -, h3⟩
        rw [Nat.sub_self, List.getD_cons_zero] at h3
        exact hc h3
      · by_cases hlt : n < i
        · have hshift : i - n = (i - (n + 1)) + 1 := by omega
          rw [hshift, List.getD_cons_succ]
          refine if_congr ?_ rfl rfl
          constructor
          · rintro ⟨h1, h2, h3⟩
            exact ⟨by omega, by omega, h3⟩
          · rintro ⟨h1, h2, h3⟩
            exact ⟨by omega, by omega, h3⟩
        · rw [if_neg (by omega), if_neg (by omega)]

/-- C5: the evaluation of a grid emits exactly one columnWin event for
every reel whose column passes the column-win test and none for any other
reel; the test holds exactly when the column is nonempty and every row
equals its first symbol, that symbol being MAN or WOMAN (the
character-linked ids, in particular never WILD); the mixed column
[MAN, MAN, WOMAN] fails the test; the winning lines depend only on the
rows, independently of the column scan; and the total win is the sum of
the line payouts alone, so the events carry no direct payout. -/
theorem columnWin_events_spec (grid : List (List String)) :
    (∀ i, i < grid.length →
      ((calculateWins grid).1.filter (fun e => e.reelIndex = i)).length =
        if isColumnWin (grid.getD i []) = true then 1 else 0) ∧
    (∀ col : List String, isColumnWin col = true ↔
      col ≠ [] ∧ (col.headD "" = "MAN" ∨ col.headD "" = "WOMAN") ∧
        ∀ x ∈ col, x = col.headD "") ∧
    isColumnWin ["MAN", "MAN", "WOMAN"] = false ∧
    (∀ g2 : List (List String),
      (∀ r, r < 3 → rowLine grid r = rowLine g2 r) →
      (calculateWins grid).2 = (calculateWins g2).2) ∧
    totalWin (calculateWins grid).2 =
      ((calculateWins grid).2.map WinLine.payout).sum := by
  refine ⟨?_, ?_, by decide, ?_, rfl⟩
  · intro i hi
    have h := columnWin_count_from grid 0 i
    rw [Nat.zero_add, Nat.sub_zero] at h
    have hcw : (calculateWins grid).1 =
        (List.enumFrom 0 grid).filterMap columnWinEvent := rfl
    rw [hcw, h]
    by_cases hx : isColumnWin (grid.getD i []) = true
    · rw [if_pos ⟨Nat.zero_le i, hi, hx⟩, if_pos hx]
    · rw [if_neg (by rintro ⟨-, -, h3⟩; exact hx h3), if_neg hx]
  · intro col
    cases col with
    | nil => simp [isColumnWin]
    | cons c cs =>
      simp only [isColumnWin, List.headD_cons, Bool.and_eq_true, decide_eq_true_eq,
        List.all_eq_true, ne_eq, reduceCtorEq, not_false_eq_true, true_and]
  · intro g2 hrow
    have e : List.range 3 = [0, 1, 2] := rfl
    show (List.range 3).filterMap (fun row => evalLine row (rowLine grid row)) =
      (List.range 3).filterMap (fun row => evalLine row (rowLine g2 row))
    rw [e]
    simp only [List.filterMap_cons, List.filterMap_nil]
    rw [hrow 0 (by omega), hrow 1 (by omega), hrow 2 (by omega)]

/-- Witness for C5 on a concrete grid: reel 0 with the constant MAN
column gets exactly one event, reel 1 with the mixed [MAN, MAN, WOMAN]
column gets none. -/
theorem columnWin_events_witness :
    ((0 : Nat) <
      ([["MAN", "MAN", "MAN"], ["MAN", "MAN", "WOMAN"], ["SNAKE", "SNAKE", "SNAKE"],
        ["WOMAN", "WOMAN", "WOMAN"], ["WILD", "WILD", "WILD"]] : List (List String)).length) ∧
    ((calculateWins [["MAN", "MAN", "MAN"], ["MAN", "MAN", "WOMAN"],
        ["SNAKE", "SNAKE", "SNAKE"], ["WOMAN", "WOMAN", "WOMAN"],
        ["WILD", "WILD", "WILD"]]).1.filter (fun e => e.reelIndex = 0)).length = 1 ∧
    ((calculateWins [["MAN", "MAN", "MAN"], ["MAN", "MAN", "WOMAN"],
        ["SNAKE", "SNAKE", "SNAKE"], ["WOMAN", "WOMAN", "WOMAN"],
        ["WILD", "WILD", "WILD"]]).1.filter (fun e => e.reelIndex = 1)).length = 0 :=
  ⟨by decide,
   by
    have h := (columnWin_events_spec [["MAN", "MAN", "MAN"], ["MAN", "MAN", "WOMAN"],
      ["SNAKE", "SNAKE", "SNAKE"], ["WOMAN", "WOMAN", "WOMAN"],
      ["WILD", "WILD", "WILD"]]).1 0 (by decide)
    rwa [if_pos (by decide)] at h,
   by
    have h := (columnWin_events_spec [["MAN", "MAN", "MAN"], ["MAN", "MAN", "WOMAN"],
      ["SNAKE", "SNAKE", "SNAKE"], ["WOMAN", "WOMAN", "WOMAN"],
      ["WILD", "WILD", "WILD"]]).1 1 (by decide)
    rwa [if_neg (by decide)] at h⟩

theorem moveSymbols_length (s : ReelBState) (d : ℚ) :
    (ReelB.moveSymbols s d).symbols.length = s.symbols.length := by
  simp [ReelB.moveSymbols]

theorem recycleB_length (s : ReelBState) (ri : Nat) :
    (ReelB.recycleSymbols s ri).symbols.length = s.symbols.length := by
  unfold ReelB.recycleSymbols
  cases hs : s.symbols with
  | nil => simp [hs]
  | cons first rest =>
    by_cases hy : first.y > 150 * (3 + 2 - 1)
    · simp [hs, hy]
    · simp [hs, hy]

theorem stopB_length (s : ReelBState) :
    (ReelB.stop s).symbols.length = s.symbols.length := by
  unfold ReelB.stop
  dsimp only
  split_ifs <;> simp

theorem updateB_length (s : ReelBState) (d : ℚ) (ri : Nat) :
    (ReelB.update s d ri).symbols.length = s.symbols.length := by
  unfold ReelB.update
  dsimp only
  split_ifs <;>
    simp [recycleB_length, moveSymbols_length, stopB_length]

/-- A recycle of revision A that returns normally preserves the buffer
length and is either a no-op or remove-front/append-back. -/
theorem recycleA_ok_spec (s : ReelAState) (ri : Nat) (t : ReelAState)
    (hok : ReelA.recycleSymbols s ri = .ok t) :
    t.symbols.length = s.symbols.length ∧
      (t = s ∨ ∃ ns, t.symbols = s.symbols.tail ++ [ns]) := by
  unfold ReelA.recycleSymbols at hok
  cases hs : s.symbols with
  | nil =>
    rw [hs] at hok
    simp at hok
  | cons first rest =>
    rw [hs] at hok
    dsimp only at hok
    by_cases hy : ReelA.recycleTrigger s first = true
    · rw [if_pos hy] at hok
      cases hlast : rest.getLast? with
      | none =>
        rw [hlast] at hok
        simp at hok
      | some last =>
        rw [hlast] at hok
        dsimp only at hok
        by_cases hsl : s.isSlowingDown = true ∧ 0 < s.targetSymbols.length
        · rw [if_pos hsl] at hok
          by_cases hcnt : s.addedCount < s.targetSymbols.length
          · rw [if_pos hcnt] at hok
            cases hval : symbolValue (s.targetSymbols.getD
                (s.targetSymbols.length - 1 - s.addedCount) "") with
            | none =>
              rw [hval] at hok
              simp at hok
            | some v =>
              rw [hval] at hok
              injection hok with hok
              subst hok
              refine ⟨by simp, Or.inr
                ⟨{ symbolType := s.targetSymbols.getD
                     (s.targetSymbols.length - 1 - s.addedCount) ""
                   value := v
                   y := last.y + (if s.direction = 1 then (-150 : ℚ) else 150) },
                 ?_⟩⟩
              rfl
          · rw [if_neg hcnt] at hok
            simp at hok
        · rw [if_neg hsl] at hok
          injection hok with hok
          subst hok
          refine ⟨by simp, Or.inr
            ⟨{ symbolType := symbolKeys.getD ri ""
               value := symbolValues.getD ri 0
               y := last.y + (if s.direction = 1 then (-150 : ℚ) else 150) },
             ?_⟩⟩
          rfl
    · rw [if_neg hy] at hok
      injection hok with hok
      subst hok
      exact ⟨by rw [hs], Or.inl rfl⟩

/-- Once the three targets have been injected during a slowdown
(addedCount has reached the target-list length), the next triggered
recycle of revision A throws after the shift: the result is an error
carrying the reel with the shortened buffer. -/
theorem recycleA_exhausted_error (s : ReelAState) (ri : Nat)
    (hne : s.symbols ≠ [])
    (htr : ReelA.recycleTrigger s (s.symbols.headD ⟨"", 0, 0⟩) = true)
    (hslow : s.isSlowingDown = true) (hpos : 0 < s.targetSymbols.length)
    (hexh : s.targetSymbols.length ≤ s.addedCount) :
    ReelA.recycleSymbols s ri = .error { s with symbols := s.symbols.tail } := by
  unfold ReelA.recycleSymbols
  cases hs : s.symbols with
  | nil => exact absurd hs hne
  | cons first rest =>
    rw [hs] at htr
    dsimp only
    simp only [List.headD_cons] at htr
    rw [if_pos htr]
    cases hlast : rest.getLast? with
    | none =>
      simp [hs]
    | some last =>
      dsimp only
      rw [if_pos ⟨hslow, hpos⟩, if_neg (by omega)]
      simp [hs]

theorem recycleB_structure (s : ReelBState) (ri : Nat) :
    ReelB.recycleSymbols s ri = s ∨
      ∃ ns, (ReelB.recycleSymbols s ri).symbols = s.symbols.tail ++ [ns] := by
  unfold ReelB.recycleSymbols
  cases hs : s.symbols with
  | nil => exact Or.inl rfl
  | cons first rest =>
    dsimp only
    by_cases hy : first.y > 150 * (3 + 2 - 1)
    · right
      rw [if_pos hy]
      exact ⟨_, rfl⟩
    · left
      rw [if_neg hy]

/-- C10 counterexample: in revision A, a slowing reel that has already
injected its three targets (addedCount = 3) crashes on the next
triggered recycle: targetSymbols[3 - 1 - 3] is targetSymbols[-1], the
undefined entry makes cfg.filename throw after shift() has removed the
head, and the reel is left with a 4-symbol buffer, violating the claimed
always-5 invariant.  This state is reached in every ordinary slowdown:
decelerating from speed 50 by 1 per tick travels about 1275 px, roughly
eight 150 px recycle events, so addedCount passes 3. -/
theorem recycle_exhausted_targets_crash :
    ReelA.recycleSymbols
      ⟨[⟨"SNAKE", 25, 601⟩, ⟨"MAN", 500, 451⟩, ⟨"WOMAN", 500, 301⟩,
        ⟨"WILD", 175, 151⟩, ⟨"SNAKE", 25, 1⟩], false, 5, 1,
        ["MAN", "WOMAN", "WILD"], 3, true, false⟩ 0 =
      .error ⟨[⟨"MAN", 500, 451⟩, ⟨"WOMAN", 500, 301⟩, ⟨"WILD", 175, 151⟩,
        ⟨"SNAKE", 25, 1⟩], false, 5, 1, ["MAN", "WOMAN", "WILD"], 3, true, false⟩ ∧
    ([⟨"MAN", 500, 451⟩, ⟨"WOMAN", 500, 301⟩, ⟨"WILD", 175, 151⟩,
      ⟨"SNAKE", 25, 1⟩] : List Sym).length = 4 ∧
    ([⟨"SNAKE", 25, 601⟩, ⟨"MAN", 500, 451⟩, ⟨"WOMAN", 500, 301⟩,
      ⟨"WILD", 175, 151⟩, ⟨"SNAKE", 25, 1⟩] : List Sym).length = 5 := by
  refine ⟨?_, rfl, rfl⟩
  have h := recycleA_exhausted_error
    ⟨[⟨"SNAKE", 25, 601⟩, ⟨"MAN", 500, 451⟩, ⟨"WOMAN", 500, 301⟩,
      ⟨"WILD", 175, 151⟩, ⟨"SNAKE", 25, 1⟩], false, 5, 1,
      ["MAN", "WOMAN", "WILD"], 3, true, false⟩ 0
    (by simp) (by norm_num [ReelA.recycleTrigger]) rfl (by norm_num) (by norm_num)
  exact h

/-- C10 as amended: a revision B reel with the invariant buffer size 5
keeps exactly 5 symbols through arbitrary update sequences in any motion
phase, and a recycle event that returns normally, in either revision,
either does nothing or removes exactly the leading symbol and appends
exactly one at the other end, preserving length and survivor order; but
in revision A, once the three targets have been injected during a
slowdown, the next triggered recycle reads targetSymbols[-1] and throws
after the shift, leaving the buffer one symbol short. -/
theorem buffer_length_invariant (inputs : List (ℚ × Nat)) (s : ReelBState)
    (sB : ReelBState) (rB : Nat)
    (h : s.symbols.length = 5) :
    ((inputs.foldl (fun st p => ReelB.update st p.1 p.2) s).symbols).length = 5 ∧
    (ReelB.recycleSymbols sB rB).symbols.length = sB.symbols.length ∧
    (ReelB.recycleSymbols sB rB = sB ∨
      ∃ ns, (ReelB.recycleSymbols sB rB).symbols = sB.symbols.tail ++ [ns]) ∧
    (∀ (sA : ReelAState) (rA : Nat) (t : ReelAState),
      ReelA.recycleSymbols sA rA = .ok t →
      t.symbols.length = sA.symbols.length ∧
        (t = sA ∨ ∃ ns, t.symbols = sA.symbols.tail ++ [ns])) ∧
    (∀ (sA : ReelAState) (rA : Nat),
      sA.symbols ≠ [] →
      ReelA.recycleTrigger sA (sA.symbols.headD ⟨"", 0, 0⟩) = true →
      sA.isSlowingDown = true →
      0 < sA.targetSymbols.length →
      sA.targetSymbols.length ≤ sA.addedCount →
      ReelA.recycleSymbols sA rA = .error { sA with symbols := sA.symbols.tail } ∧
        sA.symbols.tail.length + 1 = sA.symbols.length) := by
  refine ⟨?_, recycleB_length sB rB, recycleB_structure sB rB,
    fun sA rA t hok => recycleA_ok_spec sA rA t hok,
    fun sA rA hne htr hslow hpos hexh =>
      ⟨recycleA_exhausted_error sA rA hne htr hslow hpos hexh, ?_⟩⟩
  · have hfold : ∀ (l : List (ℚ × Nat)) (st : ReelBState),
        ((l.foldl (fun st p => ReelB.update st p.1 p.2) st).symbols).length
          = st.symbols.length := by
      intro l
      induction l with
      | nil => intro st; rfl
      | cons p ps ih =>
        intro st
        rw [List.foldl_cons, ih, updateB_length]
    rw [hfold inputs s, h]
  · cases hs : sA.symbols with
    | nil => exact absurd hs hne
    | cons first rest => simp [hs]

/-- Witness for C10 as amended: two update ticks on a concrete 5-symbol
revision B reel, plus the crash clause exercised through the
counterexample state. -/
theorem buffer_length_invariant_witness :
    ((⟨[⟨"MAN", 500, 0⟩, ⟨"WILD", 175, 150⟩, ⟨"SNAKE", 25, 300⟩,
        ⟨"BOOTS", 75, 450⟩, ⟨"BARRELS", 50, 600⟩], true, 10, [], false, false⟩ :
      ReelBState).symbols.length = 5) ∧
    ((([((1 : ℚ), 0), ((1 : ℚ), 3)]).foldl (fun st p => ReelB.update st p.1 p.2)
      ⟨[⟨"MAN", 500, 0⟩, ⟨"WILD", 175, 150⟩, ⟨"SNAKE", 25, 300⟩,
        ⟨"BOOTS", 75, 450⟩, ⟨"BARRELS", 50, 600⟩], true, 10, [], false, false⟩).symbols).length = 5 :=
  ⟨rfl,
   (buffer_length_invariant [((1 : ℚ), 0), ((1 : ℚ), 3)]
     ⟨[⟨"MAN", 500, 0⟩, ⟨"WILD", 175, 150⟩, ⟨"SNAKE", 25, 300⟩,
       ⟨"BOOTS", 75, 450⟩, ⟨"BARRELS", 50, 600⟩], true, 10, [], false, false⟩
     ⟨[], false, 0, [], false, false⟩ 0 rfl).1⟩

theorem list_length_five {α : Type _} (l : List α) (h : l.length = 5) :
    ∃ a b c d e, l = [a, b, c, d, e] := by
  rcases l with _ | ⟨a, _ | ⟨b, _ | ⟨c, _ | ⟨d, _ | ⟨e, _ | ⟨f, t⟩⟩⟩⟩⟩⟩
  · simp at h
  · simp at h
  · simp at h
  · simp at h
  · simp at h
  · exact ⟨a, b, c, d, e, rfl⟩
  · simp at h

theorem list_length_three {α : Type _} (l : List α) (h : l.length = 3) :
    ∃ a b c, l = [a, b, c] := by
  rcases l with _ | ⟨a, _ | ⟨b, _ | ⟨c, _ | ⟨d, t⟩⟩⟩⟩
  · simp at h
  · simp at h
  · simp at h
  · exact ⟨a, b, c, rfl⟩
  · simp at h

/-- C1 counterexample: revision A of the Reel (update lines 144-163,
getVisibleSymbols lines 250-252) violates the rest-state invariant on a
complete spin.  With direction -1, a spin from the aligned idle reel,
one acceleration tick, setTargetSymbols [MAN, WOMAN, WILD] and two
deceleration ticks leave the buffer at vertical positions
-3/147/297/447/597; the speed-zero transition rebinds the symbols inside
the window [0, 450) (positions 147/297/447) to the targets, but the
rank-based snapping then parks the stale BAG_OF_GOLD symbol at slot 0
and the WILD target at slot 450 outside the window, so at rest the
visible window binds [BAG_OF_GOLD, MAN, WOMAN], not the target list,
even though every position is exact.  Each conjunct is one step of the
trace, ending idle with the wrong visible binding. -/
theorem revisionA_rest_state_counterexample :
    ReelA.spin
      ⟨[⟨"BAG_OF_GOLD", 100, 0⟩, ⟨"BARRELS", 50, 150⟩, ⟨"BOOTS", 75, 300⟩,
        ⟨"SNAKE", 25, 450⟩, ⟨"GAS_LAMP", 150, 600⟩], false, 0, -1, [], 0,
        false, false⟩ =
      ⟨[⟨"BAG_OF_GOLD", 100, 0⟩, ⟨"BARRELS", 50, 150⟩, ⟨"BOOTS", 75, 300⟩,
        ⟨"SNAKE", 25, 450⟩, ⟨"GAS_LAMP", 150, 600⟩], true, 0, -1, [], 0,
        false, false⟩ ∧
    ReelA.update
      ⟨[⟨"BAG_OF_GOLD", 100, 0⟩, ⟨"BARRELS", 50, 150⟩, ⟨"BOOTS", 75, 300⟩,
        ⟨"SNAKE", 25, 450⟩, ⟨"GAS_LAMP", 150, 600⟩], true, 0, -1, [], 0,
        false, false⟩ 1 0 =
      .ok ⟨[⟨"BAG_OF_GOLD", 100, -2⟩, ⟨"BARRELS", 50, 148⟩, ⟨"BOOTS", 75, 298⟩,
        ⟨"SNAKE", 25, 448⟩, ⟨"GAS_LAMP", 150, 598⟩], true, 2, -1, [], 0,
        false, false⟩ ∧
    ReelA.setTargetSymbols
      ⟨[⟨"BAG_OF_GOLD", 100, -2⟩, ⟨"BARRELS", 50, 148⟩, ⟨"BOOTS", 75, 298⟩,
        ⟨"SNAKE", 25, 448⟩, ⟨"GAS_LAMP", 150, 598⟩], true, 2, -1, [], 0,
        false, false⟩ ["MAN", "WOMAN", "WILD"] =
      ⟨[⟨"BAG_OF_GOLD", 100, -2⟩, ⟨"BARRELS", 50, 148⟩, ⟨"BOOTS", 75, 298⟩,
        ⟨"SNAKE", 25, 448⟩, ⟨"GAS_LAMP", 150, 598⟩], true, 2, -1,
        ["MAN", "WOMAN", "WILD"], 0, true, false⟩ ∧
    ReelA.update
      ⟨[⟨"BAG_OF_GOLD", 100, -2⟩, ⟨"BARRELS", 50, 148⟩, ⟨"BOOTS", 75, 298⟩,
        ⟨"SNAKE", 25, 448⟩, ⟨"GAS_LAMP", 150, 598⟩], true, 2, -1,
        ["MAN", "WOMAN", "WILD"], 0, true, false⟩ 1 0 =
      .ok ⟨[⟨"BAG_OF_GOLD", 100, -3⟩, ⟨"BARRELS", 50, 147⟩, ⟨"BOOTS", 75, 297⟩,
        ⟨"SNAKE", 25, 447⟩, ⟨"GAS_LAMP", 150, 597⟩], true, 1, -1,
        ["MAN", "WOMAN", "WILD"], 0, true, false⟩ ∧
    ReelA.update
      ⟨[⟨"BAG_OF_GOLD", 100, -3⟩, ⟨"BARRELS", 50, 147⟩, ⟨"BOOTS", 75, 297⟩,
        ⟨"SNAKE", 25, 447⟩, ⟨"GAS_LAMP", 150, 597⟩], true, 1, -1,
        ["MAN", "WOMAN", "WILD"], 0, true, false⟩ 1 0 =
      .ok ⟨[⟨"BAG_OF_GOLD", 100, -3⟩, ⟨"MAN", 500, 147⟩, ⟨"WOMAN", 500, 297⟩,
        ⟨"WILD", 175, 447⟩, ⟨"GAS_LAMP", 150, 597⟩], false, 0, -1,
        ["MAN", "WOMAN", "WILD"], 0, true, true⟩ ∧
    ReelA.update
      ⟨[⟨"BAG_OF_GOLD", 100, -3⟩, ⟨"MAN", 500, 147⟩, ⟨"WOMAN", 500, 297⟩,
        ⟨"WILD", 175, 447⟩, ⟨"GAS_LAMP", 150, 597⟩], false, 0, -1,
        ["MAN", "WOMAN", "WILD"], 0, true, true⟩ 5 0 =
      .ok ⟨[⟨"BAG_OF_GOLD", 100, 0⟩, ⟨"MAN", 500, 150⟩, ⟨"WOMAN", 500, 300⟩,
        ⟨"WILD", 175, 450⟩, ⟨"GAS_LAMP", 150, 600⟩], false, 0, -1,
        ["MAN", "WOMAN", "WILD"], 0, true, true⟩ ∧
    ReelA.update
      ⟨[⟨"BAG_OF_GOLD", 100, 0⟩, ⟨"MAN", 500, 150⟩, ⟨"WOMAN", 500, 300⟩,
        ⟨"WILD", 175, 450⟩, ⟨"GAS_LAMP", 150, 600⟩], false, 0, -1,
        ["MAN", "WOMAN", "WILD"], 0, true, true⟩ 5 0 =
      .ok ⟨[⟨"BAG_OF_GOLD", 100, 0⟩, ⟨"MAN", 500, 150⟩, ⟨"WOMAN", 500, 300⟩,
        ⟨"WILD", 175, 450⟩, ⟨"GAS_LAMP", 150, 600⟩], false, 0, -1,
        ["MAN", "WOMAN", "WILD"], 0, false, false⟩ ∧
    ((⟨[⟨"BAG_OF_GOLD", 100, 0⟩, ⟨"MAN", 500, 150⟩, ⟨"WOMAN", 500, 300⟩,
        ⟨"WILD", 175, 450⟩, ⟨"GAS_LAMP", 150, 600⟩], false, 0, -1,
        ["MAN", "WOMAN", "WILD"], 0, false, false⟩ : ReelAState).isSpinning
      = false) ∧
    ((⟨[⟨"BAG_OF_GOLD", 100, 0⟩, ⟨"MAN", 500, 150⟩, ⟨"WOMAN", 500, 300⟩,
        ⟨"WILD", 175, 450⟩, ⟨"GAS_LAMP", 150, 600⟩], false, 0, -1,
        ["MAN", "WOMAN", "WILD"], 0, false, false⟩ : ReelAState).isStopping
      = false) ∧
    ((⟨[⟨"BAG_OF_GOLD", 100, 0⟩, ⟨"MAN", 500, 150⟩, ⟨"WOMAN", 500, 300⟩,
        ⟨"WILD", 175, 450⟩, ⟨"GAS_LAMP", 150, 600⟩], false, 0, -1,
        ["MAN", "WOMAN", "WILD"], 0, false, false⟩ : ReelAState).symbols.map
        Sym.y = [0, 150, 300, 450, 600]) ∧
    (ReelA.getVisibleSymbols
      ⟨[⟨"BAG_OF_GOLD", 100, 0⟩, ⟨"MAN", 500, 150⟩, ⟨"WOMAN", 500, 300⟩,
        ⟨"WILD", 175, 450⟩, ⟨"GAS_LAMP", 150, 600⟩], false, 0, -1,
        ["MAN", "WOMAN", "WILD"], 0, false, false⟩).map Sym.symbolType =
      ["BAG_OF_GOLD", "MAN", "WOMAN"] ∧
    (["BAG_OF_GOLD", "MAN", "WOMAN"] : List String) ≠
      ["MAN", "WOMAN", "WILD"] := by
  refine ⟨rfl, ?_, rfl, ?_, ?_, ?_, ?_, rfl, rfl, rfl, rfl, by decide⟩
  · norm_num [ReelA.update, ReelA.moveSymbols, ReelA.recycleSymbols,
      ReelA.recycleTrigger, min_def, max_def]
  · norm_num [ReelA.update, ReelA.moveSymbols, ReelA.recycleSymbols,
      ReelA.recycleTrigger, min_def, max_def]
  · norm_num [ReelA.update, ReelA.enterStopping, ReelA.rebindGo,
      ReelA.visiblePositions, ReelA.sortByY, ReelA.insertByY, max_def,
      show List.range 5 = [0, 1, 2, 3, 4] from rfl,
      show symbolValue "MAN" = some 500 from rfl,
      show symbolValue "WOMAN" = some 500 from rfl,
      show symbolValue "WILD" = some 175 from rfl]
  · norm_num [ReelA.update, ReelA.rankOfY, easeStep, ratAbs, ReelA.stop,
      List.enum, List.enumFrom, List.all_cons, List.all_nil,
      show List.range 5 = [0, 1, 2, 3, 4] from rfl]
  · norm_num [ReelA.update, ReelA.rankOfY, easeStep, ratAbs, ReelA.stop,
      List.enum, List.enumFrom, List.all_cons, List.all_nil,
      show List.range 5 = [0, 1, 2, 3, 4] from rfl]

/-- C1 as amended: the invariant holds for revision B of the Reel, whose
stop routine performs the final rebinding.  A revision B reel in the
snapping phase with the invariant buffer size 5 and a recorded 3-entry
target list that comes to rest on the next update tick (its stopping
flag drops, which happens exactly when the stop routine has run)
satisfies the rest-state invariant: the visible window binds exactly the
last recorded target list top-to-bottom, every one of the five symbols
sits exactly at slot i * 150 with zero error, and the reel reports idle.
Revision A violates the invariant (see the counterexample). -/
theorem rest_state_invariant (s : ReelBState) (d : ℚ) (ri : Nat)
    (hstop : s.isStopping = true) (hlen : s.symbols.length = 5)
    (htlen : s.targetSymbols.length = 3)
    (hidle : (ReelB.update s d ri).isStopping = false) :
    ((ReelB.getVisibleSymbols (ReelB.update s d ri)).map Sym.symbolType
        = s.targetSymbols) ∧
    (∀ i, i < 5 →
      ((ReelB.update s d ri).symbols.getD i ⟨"", 0, 0⟩).y = (i : ℚ) * 150) ∧
    (ReelB.update s d ri).isSpinning = false ∧
    (ReelB.update s d ri).isSlowingDown = false := by
  obtain ⟨m0, m1, m2, m3, m4, hsyms⟩ := list_length_five s.symbols hlen
  obtain ⟨t0, t1, t2, hts⟩ := list_length_three s.targetSymbols htlen
  obtain ⟨syms, isSp, speed, tgts, slow, stopFlag⟩ := s
  simp only at hsyms hts hstop
  subst hsyms hts hstop
  have hstep : ReelB.update
      ⟨[m0, m1, m2, m3, m4], isSp, speed, [t0, t1, t2], slow, true⟩ d ri =
      (if ([(0, m0), (1, m1), (2, m2), (3, m3), (4, m4)] : List (Nat × Sym)).all
          (fun p => ratAbs (p.2.y - p.1 * 150) ≤ 1 / 2) then
        ReelB.stop
          ⟨[⟨m0.symbolType, m0.value, easeStep m0.y ((0 : Nat) * 150) d⟩,
            ⟨m1.symbolType, m1.value, easeStep m1.y ((1 : Nat) * 150) d⟩,
            ⟨m2.symbolType, m2.value, easeStep m2.y ((2 : Nat) * 150) d⟩,
            ⟨m3.symbolType, m3.value, easeStep m3.y ((3 : Nat) * 150) d⟩,
            ⟨m4.symbolType, m4.value, easeStep m4.y ((4 : Nat) * 150) d⟩],
           isSp, speed, [t0, t1, t2], slow, true⟩
      else
        ⟨[⟨m0.symbolType, m0.value, easeStep m0.y ((0 : Nat) * 150) d⟩,
          ⟨m1.symbolType, m1.value, easeStep m1.y ((1 : Nat) * 150) d⟩,
          ⟨m2.symbolType, m2.value, easeStep m2.y ((2 : Nat) * 150) d⟩,
          ⟨m3.symbolType, m3.value, easeStep m3.y ((3 : Nat) * 150) d⟩,
          ⟨m4.symbolType, m4.value, easeStep m4.y ((4 : Nat) * 150) d⟩],
         isSp, speed, [t0, t1, t2], slow, true⟩) := by
    rw [ReelB.update]
    dsimp only
    rw [if_neg (show ¬(isSp = false ∧ true = false) by simp)]
    rw [if_pos (show (true = true) from rfl)]
    rfl
  rw [hstep] at hidle ⊢
  by_cases hall : (([(0, m0), (1, m1), (2, m2), (3, m3), (4, m4)] :
      List (Nat × Sym)).all
        (fun p => ratAbs (p.2.y - p.1 * 150) ≤ 1 / 2)) = true
  · rw [if_pos hall] at hidle ⊢
    simp only [List.all_cons, List.all_nil, Bool.and_eq_true, decide_eq_true_eq,
      and_true] at hall
    obtain ⟨h0, h1, h2, h3, h4⟩ := hall
    have e0 : easeStep m0.y ((0 : Nat) * 150) d = ((0 : Nat) : ℚ) * 150 := by
      rw [easeStep, if_neg (not_lt.mpr h0)]
    have e1 : easeStep m1.y ((1 : Nat) * 150) d = ((1 : Nat) : ℚ) * 150 := by
      rw [easeStep, if_neg (not_lt.mpr h1)]
    have e2 : easeStep m2.y ((2 : Nat) * 150) d = ((2 : Nat) : ℚ) * 150 := by
      rw [easeStep, if_neg (not_lt.mpr h2)]
    have e3 : easeStep m3.y ((3 : Nat) * 150) d = ((3 : Nat) : ℚ) * 150 := by
      rw [easeStep, if_neg (not_lt.mpr h3)]
    have e4 : easeStep m4.y ((4 : Nat) * 150) d = ((4 : Nat) : ℚ) * 150 := by
      rw [easeStep, if_neg (not_lt.mpr h4)]
    rw [e0, e1, e2, e3, e4]
    refine ⟨rfl, ?_, rfl, rfl⟩
    intro i hi
    interval_cases i <;> rfl
  · rw [if_neg hall] at hidle
    simp at hidle

/-- Witness for C1: a concrete snapping reel one tick from rest. -/
theorem rest_state_invariant_witness :
    ((⟨[⟨"BOOTS", 75, 3 / 10⟩, ⟨"SNAKE", 25, 150⟩, ⟨"WILD", 175, 300⟩,
        ⟨"BARRELS", 50, 450⟩, ⟨"MAN", 500, 600⟩], false, 0,
        ["MAN", "WOMAN", "WILD"], true, true⟩ : ReelBState).isStopping = true) ∧
    ((ReelB.getVisibleSymbols (ReelB.update
        ⟨[⟨"BOOTS", 75, 3 / 10⟩, ⟨"SNAKE", 25, 150⟩, ⟨"WILD", 175, 300⟩,
          ⟨"BARRELS", 50, 450⟩, ⟨"MAN", 500, 600⟩], false, 0,
          ["MAN", "WOMAN", "WILD"], true, true⟩ 1 0)).map Sym.symbolType
      = ["MAN", "WOMAN", "WILD"]) :=
  ⟨rfl,
   (rest_state_invariant
     ⟨[⟨"BOOTS", 75, 3 / 10⟩, ⟨"SNAKE", 25, 150⟩, ⟨"WILD", 175, 300⟩,
       ⟨"BARRELS", 50, 450⟩, ⟨"MAN", 500, 600⟩], false, 0,
       ["MAN", "WOMAN", "WILD"], true, true⟩ 1 0 rfl rfl rfl
     (by
       rw [ReelB.update]
       dsimp only
       rw [if_neg (show ¬((false : Bool) = false ∧ (true : Bool) = false) by simp)]
       rw [if_pos (show (true = true) from rfl)]
       rw [if_pos (show (([⟨"BOOTS", 75, 3 / 10⟩, ⟨"SNAKE", 25, 150⟩,
              ⟨"WILD", 175, 300⟩, ⟨"BARRELS", 50, 450⟩,
              ⟨"MAN", 500, 600⟩] : List Sym).enum.all
                (fun p => ratAbs (p.2.y - p.1 * 150) ≤ 1 / 2)) = true by
         simp only [List.enum, List.enumFrom, List.all_cons, List.all_nil,
           Bool.and_eq_true, decide_eq_true_eq, and_true]
         norm_num [ratAbs])]
       simp [ReelB.stop])).1⟩

end WestCowboy
